import Mathlib

/-!
Shallow embedding of the `node-zenhub` client library (`src/lib/zenhub.js`).

JavaScript runtime values are modelled by `JsValue`; each anonymous response
handler in the source becomes an explicit Lean function; a handler that would
throw a `TypeError` before invoking its callback returns `none`.
-/

/-- A JavaScript runtime value, as far as the library manipulates them:
`undefined`, `null`, booleans, numbers, strings, `Error` objects (with their
message), plain objects (field lists) and arrays. -/
inductive JsValue where
  | undef
  | null
  | bool (b : Bool)
  | num (n : Int)
  | str (s : String)
  | err (message : String)
  | obj (fields : List (String × JsValue))
  | arr (elems : List JsValue)
deriving Repr

/-- JavaScript truthiness of a value (`!!v`). -/
def truthy : JsValue → Bool
  | .undef => false
  | .null => false
  | .bool b => b
  | .num n => n != 0
  | .str s => s != ""
  | .err _ => true
  | .obj _ => true
  | .arr _ => true

/-- JavaScript `a || b`: `a` when truthy, else `b`. -/
def jsOr (a b : JsValue) : JsValue :=
  if truthy a then a else b

/-- JavaScript property read `v[key]`: `none` models a thrown `TypeError`
(reading a property of `undefined` or `null`); otherwise the property value,
`undefined` when the property is missing. -/
def getProp (v : JsValue) (key : String) : Option JsValue :=
  match v with
  | .undef => none
  | .null => none
  | .obj fields => some ((List.lookup key fields).getD .undef)
  | .err m => some (if key == "message" then .str m else .undef)
  | _ => some (.undef)

/-- JavaScript strict equality `v === s` against a string literal `s`. -/
def strictEqStr (v : JsValue) (s : String) : Bool :=
  match v with
  | .str a => a == s
  | _ => false

mutual

/-- JavaScript `String(v)` conversion, for the values the library can feed to
`new Error(...)`. Arrays join their elements with commas, with `undefined` and
`null` elements rendered empty. -/
def jsToString : JsValue → String
  | .undef => "undefined"
  | .null => "null"
  | .bool true => "true"
  | .bool false => "false"
  | .num n => toString n
  | .str s => s
  | .err m => "Error: " ++ m
  | .obj _ => "[object Object]"
  | .arr xs => String.intercalate "," (jsElemStrings xs)

/-- Element-wise string conversion used by array-to-string. -/
def jsElemStrings : List JsValue → List String
  | [] => []
  | .undef :: vs => "" :: jsElemStrings vs
  | .null :: vs => "" :: jsElemStrings vs
  | v :: vs => jsToString v :: jsElemStrings vs

end

/-- The message of `new Error(x)`: empty when `x` is `undefined`, else the
string conversion of `x`. -/
def newErrorMessage (x : JsValue) : String :=
  match x with
  | .undef => ""
  | v => jsToString v

/-- The response handler installed by `ZenHub.prototype._get`
(src/lib/zenhub.js lines 37-42): on transport success, a truthy `body.status`
differing from the string `OK` is turned into a synthesized `Error` whose
message is `body.description || body.error_message`; the callback then
receives `(error, body || \x7b\x7d)`. Reading `body.status` of an
`undefined`/`null` body throws, modelled as `none` (callback never runs). -/
def getResponseHandler (error body : JsValue) : Option (JsValue × JsValue) :=
  if truthy error then
    some (error, jsOr body (.obj []))
  else
    match getProp body "status" with
    | none => none
    | some st =>
      if truthy st && !(strictEqStr st "OK") then
        let d := (getProp body "description").getD .undef
        let em := (getProp body "error_message").getD .undef
        some (.err (newErrorMessage (jsOr d em)), jsOr body (.obj []))
      else
        some (error, jsOr body (.obj []))

/-- The response handler installed by `ZenHub.prototype._post`
(src/lib/zenhub.js line 67): `callback(error, body || \x7b\x7d)`, with no
inspection of the body. -/
def postResponseHandler (error body : JsValue) : JsValue × JsValue :=
  (error, jsOr body (.obj []))

/-- The response handler installed by `ZenHub.prototype._put`
(src/lib/zenhub.js line 92): `callback(error, body || \x7b\x7d)`, with no
inspection of the body. -/
def putResponseHandler (error body : JsValue) : JsValue × JsValue :=
  (error, jsOr body (.obj []))

/-- Assignment `o[k] = v` on a JavaScript object modelled as an ordered field
list: overwrite the existing entry in place, else append a new one. -/
def objSet (o : List (String × String)) (k v : String) : List (String × String) :=
  if o.any (fun p => p.1 == k) then
    o.map (fun p => if p.1 == k then (k, v) else p)
  else
    o ++ [(k, v)]

/-- The external shallow-merge utility `xtend(a, b)`: a freshly created object
receiving every own property of `a`, then of `b` (later sources win). -/
def xtend (a b : List (String × String)) : List (String × String) :=
  (a ++ b).foldl (fun target p => objSet target p.1 p.2) []

/-- Hexadecimal digit (uppercase), as used by percent-encoding. -/
def hexDigit (n : Nat) : Char :=
  if n < 10 then Char.ofNat (48 + n) else Char.ofNat (55 + n)

/-- Percent-encoding of one byte. -/
def percentByte (b : Nat) : String :=
  "%" ++ (hexDigit (b / 16 % 16)).toString ++ (hexDigit (b % 16)).toString

/-- Characters the query-string encoder leaves unescaped: alphanumerics and
the marks of `encodeURIComponent`. -/
def noEscapeChar (c : Char) : Bool :=
  c.isAlphanum || c == '-' || c == '_' || c == '.' || c == '!' ||
    c == '~' || c == '*' || c == '\'' || c == '(' || c == ')'

/-- `querystring.escape`: percent-encode the UTF-8 bytes of every character
outside the no-escape set. -/
def qsEscape (s : String) : String :=
  String.join (s.data.map (fun c =>
    if noEscapeChar c then c.toString
    else String.join ((c.toString.toUTF8.toList).map (fun b => percentByte b.toNat))))

/-- `querystring.stringify` on a flat string-valued parameter object:
`k=v` pairs joined by `&`, both sides escaped. -/
def qsStringify (params : List (String × String)) : String :=
  String.intercalate "&" (params.map (fun p => qsEscape p.1 ++ "=" ++ qsEscape p.2))

/-- The fixed base address (`API_URL` in src/lib/zenhub.js). -/
def API_URL : String := "https://api.zenhub.io/p1"

/-- HTTP verb of an outgoing request. -/
inductive Verb where
  | GET
  | POST
  | PUT
deriving DecidableEq, Repr

/-- One outgoing HTTP request as the helpers assemble it: the verb, the path
part after the API root, the merged query parameters, the full URL, and the
JSON request body (absent for GET). -/
structure Request where
  verb : Verb
  path : String
  params : List (String × String)
  url : String
  reqBody : Option JsValue
deriving Repr

/-- The client: `new ZenHub(token)` stores `\x7b access_token: token \x7d`. -/
structure ZenHub where
  credentials : List (String × String)

/-- The constructor `ZenHub(token)` (src/lib/zenhub.js lines 13-17). -/
def mkZenHub (token : String) : ZenHub :=
  { credentials := [("access_token", token)] }

/-- `ZenHub.prototype._get` request assembly (src/lib/zenhub.js lines 29-36):
merge credentials into the parameters, build the URL as
`API_URL + '/' + url + '?' + querystring.stringify(parameters)`, issue a GET. -/
def ZenHub._get (z : ZenHub) (url : String) (parameters : List (String × String)) :
    Request :=
  let parameters := xtend parameters z.credentials
  { verb := .GET, path := url, params := parameters,
    url := API_URL ++ "/" ++ url ++ "?" ++ qsStringify parameters, reqBody := none }

/-- `ZenHub.prototype._post` request assembly (src/lib/zenhub.js lines 57-65). -/
def ZenHub._post (z : ZenHub) (url : String) (parameters : List (String × String))
    (body : JsValue) : Request :=
  let parameters := xtend parameters z.credentials
  { verb := .POST, path := url, params := parameters,
    url := API_URL ++ "/" ++ url ++ "?" ++ qsStringify parameters, reqBody := some body }

/-- `ZenHub.prototype._put` request assembly (src/lib/zenhub.js lines 82-90). -/
def ZenHub._put (z : ZenHub) (url : String) (parameters : List (String × String))
    (body : JsValue) : Request :=
  let parameters := xtend parameters z.credentials
  { verb := .PUT, path := url, params := parameters,
    url := API_URL ++ "/" ++ url ++ "?" ++ qsStringify parameters, reqBody := some body }

/-- The request issued by `getBoard(repoId, ...)`. -/
def ZenHub.getBoard (z : ZenHub) (repoId : Int) : Request :=
  z._get ("repositories/" ++ toString repoId ++ "/board") []

/-- The request issued by `getIssue(repoId, issueNumber, ...)`. -/
def ZenHub.getIssue (z : ZenHub) (repoId issueNumber : Int) : Request :=
  z._get ("repositories/" ++ toString repoId ++ "/issues/" ++ toString issueNumber) []

/-- The request issued by `getIssueEvents(repoId, issueNumber, ...)`. -/
def ZenHub.getIssueEvents (z : ZenHub) (repoId issueNumber : Int) : Request :=
  z._get ("repositories/" ++ toString repoId ++ "/issues/" ++ toString issueNumber
    ++ "/events") []

/-- The request issued by `getEpics(repoId, ...)`. -/
def ZenHub.getEpics (z : ZenHub) (repoId : Int) : Request :=
  z._get ("repositories/" ++ toString repoId ++ "/epics") []

/-- The request issued by `getEpicData(repoId, epicId, ...)`. -/
def ZenHub.getEpicData (z : ZenHub) (repoId epicId : Int) : Request :=
  z._get ("repositories/" ++ toString repoId ++ "/epics/" ++ toString epicId) []

/-- The request issued by `addRemoveIssuesToEpic(repoId, epicId, payload, ...)`. -/
def ZenHub.addRemoveIssuesToEpic (z : ZenHub) (repoId epicId : Int)
    (payload : JsValue) : Request :=
  z._post ("repositories/" ++ toString repoId ++ "/epics/" ++ toString epicId
    ++ "/update_issues") [] payload

/-- The request issued by `convertIssueToEpic(repoId, issueId, payload, ...)`. -/
def ZenHub.convertIssueToEpic (z : ZenHub) (repoId issueId : Int)
    (payload : JsValue) : Request :=
  z._post ("repositories/" ++ toString repoId ++ "/issues/" ++ toString issueId
    ++ "/convert_to_epic") [] payload

/-- The request issued by `setEstimateForIssue(repoId, issueId, payload, ...)`. -/
def ZenHub.setEstimateForIssue (z : ZenHub) (repoId issueId : Int)
    (payload : JsValue) : Request :=
  z._put ("repositories/" ++ toString repoId ++ "/issues/" ++ toString issueId
    ++ "/estimate") [] payload

/-- What `getBoard`'s caller callback receives: `getBoard` wraps `_get` with
`function(error, body) \x7b callback(error, body.pipelines); \x7d`
(src/lib/zenhub.js lines 104-108), so the field extraction is applied to
whatever the `_get` handler delivered, on every completion. -/
def getBoardComplete (error body : JsValue) : Option (JsValue × JsValue) :=
  (getResponseHandler error body).bind fun r =>
    (getProp r.2 "pipelines").map fun p => (r.1, p)

/-- What `getEpicData`'s caller callback receives: its wrapper forwards
`(error, body)` unchanged. -/
def getEpicDataComplete (error body : JsValue) : Option (JsValue × JsValue) :=
  getResponseHandler error body

/-- What `setEstimateForIssue`'s caller callback receives: its wrapper
forwards `(error, body)` from the `_put` handler unchanged. -/
def setEstimateForIssueComplete (error body : JsValue) : JsValue × JsValue :=
  putResponseHandler error body

/-- A store of parameter objects addressed by allocation index: the mutable
object heap, as far as the parameter merge touches it. Used to express that
the merge writes only into a fresh object. -/
structure Heap where
  objs : List (List (String × String))

/-- Read the object at address `r`. -/
def Heap.read (h : Heap) (r : Nat) : List (String × String) :=
  (h.objs[r]?).getD []

/-- Allocate a new object, returning the extended heap and the fresh address. -/
def Heap.alloc (h : Heap) (o : List (String × String)) : Heap × Nat :=
  ({ objs := h.objs ++ [o] }, h.objs.length)

/-- The external `xtend(a, b)` call on the heap, as `_get`/`_post`/`_put` use
it: it creates a fresh target object, copies the fields of its sources into
the target, and returns the target's address; it never assigns to `a` or `b`
(the local rebinding `parameters = extend(parameters, this.credentials)` only
repoints the variable). -/
def xtendAlloc (h : Heap) (a b : Nat) : Heap × Nat :=
  h.alloc (xtend (h.read a) (h.read b))

/-! ## General lemmas about the handlers -/

/-- Whenever the `_get` handler reaches its callback, the body argument it
passes is `body || \x7b\x7d`. -/
theorem getResponseHandler_snd (error body : JsValue) (r : JsValue × JsValue)
    (h : getResponseHandler error body = some r) : r.2 = jsOr body (.obj []) := by
  unfold getResponseHandler at h
  split at h
  · cases h; rfl
  · split at h
    · exact Option.noConfusion h
    · split at h
      · cases h; rfl
      · cases h; rfl

/-- Property access on `body || \x7b\x7d` never throws: the left operand is
truthy (hence not `undefined`/`null`) or replaced by the empty object. -/
theorem getProp_jsOr_some (body : JsValue) (k : String) :
    ∃ w, getProp (jsOr body (.obj [])) k = some w := by
  unfold jsOr
  split
  · rename_i ht
    cases body <;> simp [truthy] at ht <;> exact ⟨_, rfl⟩
  · exact ⟨_, rfl⟩

/-! ## C1 -/

/-- C1, counterexample: with no transport error, a body whose `status` is the
empty string — a string different from "OK" — synthesizes no error at all:
the callback still receives the falsy transport error (`null`). -/
theorem get_empty_status_no_error_ce :
    getResponseHandler .null (.obj [("status", .str "")]) =
      some (.null, .obj [("status", .str "")]) ∧
    ("" : String) ≠ "OK" :=
  ⟨rfl, by decide⟩

/-- C1, amended: on a GET completion with no transport error, a *non-empty*
string `status` differing from "OK" synthesizes an error; an absent, empty or
"OK" status leaves the (falsy) transport error untouched. -/
theorem get_status_error_synthesis (error body : JsValue)
    (he : truthy error = false) :
    (∀ s, getProp body "status" = some (.str s) → s ≠ "" → s ≠ "OK" →
      ∃ m, getResponseHandler error body = some (.err m, jsOr body (.obj []))) ∧
    (∀ s, getProp body "status" = some (.str s) → (s = "OK" ∨ s = "") →
      getResponseHandler error body = some (error, jsOr body (.obj []))) ∧
    (getProp body "status" = some .undef →
      getResponseHandler error body = some (error, jsOr body (.obj []))) := by
  refine ⟨?_, ?_, ?_⟩
  · intro s hs h1 h2
    unfold getResponseHandler
    rw [if_neg (by simp [he]), hs]
    dsimp only
    rw [if_pos (show (truthy (.str s) && !(strictEqStr (.str s) "OK")) = true by
      simp [truthy, strictEqStr, h1, h2])]
    exact ⟨_, rfl⟩
  · intro s hs hor
    unfold getResponseHandler
    rw [if_neg (by simp [he]), hs]
    dsimp only
    rcases hor with h | h <;> subst h <;> rw [if_neg (by decide)]
  · intro hs
    unfold getResponseHandler
    rw [if_neg (by simp [he]), hs]
    dsimp only
    rw [if_neg (by decide)]

/-- C1, witness: instantiation at a body with `status = "Error"`. -/
theorem get_status_error_synthesis_witness :
    truthy JsValue.null = false ∧
    ∃ m, getResponseHandler .null (.obj [("status", .str "Error")]) =
      some (.err m, jsOr (.obj [("status", .str "Error")]) (.obj [])) :=
  ⟨rfl, (get_status_error_synthesis JsValue.null _ rfl).1 "Error" rfl
    (by decide) (by decide)⟩

/-! ## C2 -/

/-- C2: the POST and PUT handlers forward the transport error unchanged and
never inspect `body.status`, so an application-level `status` other than "OK"
produces no synthesized error; in particular `setEstimateForIssue` against a
body with `status = "Error"` and transport success delivers
`(null, \x7bstatus: "Error"\x7d)`. -/
theorem post_put_no_synthesized_error :
    (∀ error body : JsValue,
      postResponseHandler error body = (error, jsOr body (.obj [])) ∧
      putResponseHandler error body = (error, jsOr body (.obj []))) ∧
    setEstimateForIssueComplete .null (.obj [("status", .str "Error")]) =
      (.null, .obj [("status", .str "Error")]) :=
  ⟨fun _ _ => ⟨rfl, rfl⟩, rfl⟩

/-! ## C3 -/

/-- C3, counterexample: with `status = "Error"`, a *present but empty*
`description` is falsy, so the synthesized message falls back to
`error_message` ("boom") instead of the present `description` (""). -/
theorem get_empty_description_fallback_ce :
    getResponseHandler .null
      (.obj [("status", .str "Error"), ("description", .str ""),
        ("error_message", .str "boom")]) =
      some (.err "boom",
        .obj [("status", .str "Error"), ("description", .str ""),
          ("error_message", .str "boom")]) ∧
    ("boom" : String) ≠ "" :=
  ⟨rfl, by decide⟩

/-- C3, amended: when a GET synthesizes an application-level error, its
message is the body's `description` whenever that field is present and
non-empty, and is the body's `error_message` when `description` is absent or
empty. -/
theorem get_error_message_choice (fields : List (String × JsValue)) (s : String)
    (hs : List.lookup "status" fields = some (.str s))
    (h1 : s ≠ "") (h2 : s ≠ "OK") :
    (∀ ds, List.lookup "description" fields = some (.str ds) → ds ≠ "" →
      getResponseHandler .null (.obj fields) = some (.err ds, .obj fields)) ∧
    (∀ em, (List.lookup "description" fields = none ∨
        List.lookup "description" fields = some (.str "")) →
      List.lookup "error_message" fields = some (.str em) →
      getResponseHandler .null (.obj fields) = some (.err em, .obj fields)) := by
  constructor
  · intro ds hd hds
    unfold getResponseHandler
    simp [getProp, hs, hd, truthy, strictEqStr, h1, h2, jsOr, hds,
      newErrorMessage, jsToString]
  · intro em hd hem
    unfold getResponseHandler
    rcases hd with h | h <;>
      simp [getProp, hs, h, hem, truthy, strictEqStr, h1, h2, jsOr,
        newErrorMessage, jsToString]

/-- C3, witness: the spec's `getEpicData` scenario, proved by instantiating
the message-choice theorem at `status = "Error"`, `description = "not found"`. -/
theorem get_error_message_choice_witness :
    getResponseHandler .null
      (.obj [("status", .str "Error"), ("description", .str "not found")]) =
      some (.err "not found",
        .obj [("status", .str "Error"), ("description", .str "not found")]) :=
  (get_error_message_choice
      [("status", .str "Error"), ("description", .str "not found")] "Error"
      rfl (by decide) (by decide)).1 "not found" rfl (by decide)

/-! ## C4 -/

/-- C4, counterexample: on a transport error with absent body, `getBoard`'s
callback receives `undefined` as its result — `(\x7b\x7d).pipelines` — not
the empty object the claim promises for every endpoint method. -/
theorem getBoard_error_result_ce :
    getBoardComplete (.err "boom") .undef = some (.err "boom", .undef) ∧
    JsValue.undef ≠ JsValue.obj [] :=
  ⟨rfl, fun h => JsValue.noConfusion h⟩

/-- C4, amended: a transport error is forwarded unchanged by every handler,
paired with the body (or the empty object if absent) — except through
`getBoard`, whose callback receives that body's `pipelines` field instead. -/
theorem error_forwarded_unchanged (error body : JsValue)
    (he : truthy error = true) :
    getResponseHandler error body = some (error, jsOr body (.obj [])) ∧
    postResponseHandler error body = (error, jsOr body (.obj [])) ∧
    putResponseHandler error body = (error, jsOr body (.obj [])) ∧
    getBoardComplete error body =
      (getProp (jsOr body (.obj [])) "pipelines").map (fun p => (error, p)) := by
  have h1 : getResponseHandler error body = some (error, jsOr body (.obj [])) := by
    unfold getResponseHandler
    rw [if_pos he]
  refine ⟨h1, rfl, rfl, ?_⟩
  unfold getBoardComplete
  rw [h1]
  rfl

/-- C4, witness: instantiation at a transport error and absent body. -/
theorem error_forwarded_unchanged_witness :
    getResponseHandler (.err "boom") .undef =
      some (.err "boom", jsOr .undef (.obj [])) ∧
    postResponseHandler (.err "boom") .undef = (.err "boom", jsOr .undef (.obj [])) ∧
    putResponseHandler (.err "boom") .undef = (.err "boom", jsOr .undef (.obj [])) ∧
    getBoardComplete (.err "boom") .undef =
      (getProp (jsOr .undef (.obj [])) "pipelines").map (fun p => (.err "boom", p)) :=
  error_forwarded_unchanged (.err "boom") .undef rfl

/-! ## C5 -/

/-- C5 (code bug): on a GET completion with no transport error and an absent
body, the handler reads `body.status` of `undefined` and throws a
`TypeError`, so the callback is never invoked — against the documented
`body || \x7b\x7d` substitution, which POST and PUT do perform. -/
theorem get_absent_body_throws :
    getResponseHandler .null .undef = none ∧
    postResponseHandler .null .undef = (.null, .obj []) ∧
    putResponseHandler .null .undef = (.null, .obj []) :=
  ⟨rfl, rfl, rfl⟩

/-! ## C6 -/

/-- C6: on a successful GET with body `\x7bstatus: "OK", pipelines: P\x7d`,
`getBoard`'s callback receives `(null, P)` — only the `pipelines` field, not
the full body; in particular the spec's scenario with one pipeline `p1`. -/
theorem getBoard_extracts_pipelines :
    (∀ P : JsValue,
      getBoardComplete .null (.obj [("status", .str "OK"), ("pipelines", P)]) =
        some (.null, P)) ∧
    getBoardComplete .null
        (.obj [("status", .str "OK"),
          ("pipelines", .arr [.obj [("id", .str "p1")]])]) =
      some (.null, .arr [.obj [("id", .str "p1")]]) :=
  ⟨fun _ => rfl, rfl⟩

/-! ## C7 -/

/-- C7: every helper builds its URL as `API_URL + '/' + path + '?' + query`,
and every endpoint method interposes its identifiers into the documented path
template by exact string concatenation; in particular `getIssue(42, 7)`
targets `repositories/42/issues/7`. -/
theorem request_url_construction :
    (∀ (z : ZenHub) (url : String) (ps : List (String × String)),
      (z._get url ps).url =
        API_URL ++ "/" ++ url ++ "?" ++ qsStringify (z._get url ps).params ∧
      (z._get url ps).path = url) ∧
    (∀ (z : ZenHub) (url : String) (ps : List (String × String)) (b : JsValue),
      (z._post url ps b).url =
        API_URL ++ "/" ++ url ++ "?" ++ qsStringify (z._post url ps b).params ∧
      (z._put url ps b).url =
        API_URL ++ "/" ++ url ++ "?" ++ qsStringify (z._put url ps b).params) ∧
    (∀ (z : ZenHub) (r i : Int),
      (z.getBoard r).path = "repositories/" ++ toString r ++ "/board" ∧
      (z.getIssue r i).path =
        "repositories/" ++ toString r ++ "/issues/" ++ toString i ∧
      (z.getIssueEvents r i).path =
        "repositories/" ++ toString r ++ "/issues/" ++ toString i ++ "/events" ∧
      (z.getEpics r).path = "repositories/" ++ toString r ++ "/epics" ∧
      (z.getEpicData r i).path =
        "repositories/" ++ toString r ++ "/epics/" ++ toString i) ∧
    (∀ (z : ZenHub) (r i : Int) (payload : JsValue),
      (z.addRemoveIssuesToEpic r i payload).path =
        "repositories/" ++ toString r ++ "/epics/" ++ toString i
          ++ "/update_issues" ∧
      (z.convertIssueToEpic r i payload).path =
        "repositories/" ++ toString r ++ "/issues/" ++ toString i
          ++ "/convert_to_epic" ∧
      (z.setEstimateForIssue r i payload).path =
        "repositories/" ++ toString r ++ "/issues/" ++ toString i
          ++ "/estimate") ∧
    (∀ z : ZenHub, (z.getIssue 42 7).path = "repositories/42/issues/7") :=
  ⟨fun _ _ _ => ⟨rfl, rfl⟩, fun _ _ _ _ => ⟨rfl, rfl⟩,
    fun _ _ _ => ⟨rfl, rfl, rfl, rfl, rfl⟩, fun _ _ _ _ => ⟨rfl, rfl, rfl⟩,
    fun _ => rfl⟩

/-! ## C8 -/

/-- C8: for a client built with token `t`, the merged query parameters of the
request issued by each of the eight endpoint methods bind `access_token` to
`t`; concretely, the encoded query string of `getBoard` is
`access_token=TOKEN123` for token `TOKEN123`. -/
theorem access_token_in_every_request (t : String) (r i : Int)
    (payload : JsValue) :
    List.lookup "access_token" ((mkZenHub t).getBoard r).params = some t ∧
    List.lookup "access_token" ((mkZenHub t).getIssue r i).params = some t ∧
    List.lookup "access_token" ((mkZenHub t).getIssueEvents r i).params = some t ∧
    List.lookup "access_token" ((mkZenHub t).getEpics r).params = some t ∧
    List.lookup "access_token" ((mkZenHub t).getEpicData r i).params = some t ∧
    List.lookup "access_token"
      ((mkZenHub t).addRemoveIssuesToEpic r i payload).params = some t ∧
    List.lookup "access_token"
      ((mkZenHub t).convertIssueToEpic r i payload).params = some t ∧
    List.lookup "access_token"
      ((mkZenHub t).setEstimateForIssue r i payload).params = some t ∧
    qsStringify ((mkZenHub "TOKEN123").getBoard 1).params =
      "access_token=TOKEN123" :=
  ⟨rfl, rfl, rfl, rfl, rfl, rfl, rfl, rfl, rfl⟩

/-! ## C9 -/

/-- C9: the parameter merge writes only into a freshly allocated object: the
caller-supplied parameter object and the client's stored credential object
read back unchanged afterwards, and the merge result lives at a new address
holding exactly the merged fields. -/
theorem xtend_allocates_fresh (h : Heap) (a b : Nat)
    (ha : a < h.objs.length) (hb : b < h.objs.length) :
    ((xtendAlloc h a b).1).read a = h.read a ∧
    ((xtendAlloc h a b).1).read b = h.read b ∧
    (xtendAlloc h a b).2 ≠ a ∧
    (xtendAlloc h a b).2 ≠ b ∧
    ((xtendAlloc h a b).1).read (xtendAlloc h a b).2 =
      xtend (h.read a) (h.read b) := by
  refine ⟨?_, ?_, ?_, ?_, ?_⟩
  · show ((h.objs ++ [_])[a]?).getD [] = (h.objs[a]?).getD []
    rw [List.getElem?_append]
    simp [ha]
  · show ((h.objs ++ [_])[b]?).getD [] = (h.objs[b]?).getD []
    rw [List.getElem?_append]
    simp [hb]
  · exact fun hc => absurd (hc ▸ ha) (lt_irrefl _)
  · exact fun hc => absurd (hc ▸ hb) (lt_irrefl _)
  · show ((h.objs ++ [_])[h.objs.length]?).getD [] = _
    rw [List.getElem?_concat_length]
    rfl

/-- C9, witness: a two-object heap holding a caller parameter map and the
credential object. -/
theorem xtend_allocates_fresh_witness :
    ((xtendAlloc ⟨[[("a", "1")], [("access_token", "t")]]⟩ 0 1).1).read 0 =
      Heap.read ⟨[[("a", "1")], [("access_token", "t")]]⟩ 0 ∧
    ((xtendAlloc ⟨[[("a", "1")], [("access_token", "t")]]⟩ 0 1).1).read 1 =
      Heap.read ⟨[[("a", "1")], [("access_token", "t")]]⟩ 1 ∧
    (xtendAlloc ⟨[[("a", "1")], [("access_token", "t")]]⟩ 0 1).2 ≠ 0 ∧
    (xtendAlloc ⟨[[("a", "1")], [("access_token", "t")]]⟩ 0 1).2 ≠ 1 ∧
    ((xtendAlloc ⟨[[("a", "1")], [("access_token", "t")]]⟩ 0 1).1).read
        (xtendAlloc ⟨[[("a", "1")], [("access_token", "t")]]⟩ 0 1).2 =
      xtend (Heap.read ⟨[[("a", "1")], [("access_token", "t")]]⟩ 0)
        (Heap.read ⟨[[("a", "1")], [("access_token", "t")]]⟩ 1) :=
  xtend_allocates_fresh ⟨[[("a", "1")], [("access_token", "t")]]⟩ 0 1
    (by decide) (by decide)

/-! ## C10 -/

/-- C10: `getBoard` applies the `pipelines` extraction to every completion
the `_get` handler delivers — error or not — so its callback's result is
always `body.pipelines` of the delivered body (`undefined` when that field is
missing), never the full body and never the empty object. -/
theorem getBoard_extraction_unconditional (error body e b : JsValue)
    (hc : getResponseHandler error body = some (e, b)) :
    b = jsOr body (.obj []) ∧
    getBoardComplete error body = (getProp b "pipelines").map (fun p => (e, p)) ∧
    (∃ p, getProp b "pipelines" = some p ∧
      getBoardComplete error body = some (e, p)) ∧
    (∀ fields, b = .obj fields → List.lookup "pipelines" fields = none →
      getBoardComplete error body = some (e, .undef)) := by
  have hb : b = jsOr body (.obj []) :=
    getResponseHandler_snd error body (e, b) hc
  have hmap : getBoardComplete error body =
      (getProp b "pipelines").map (fun p => (e, p)) := by
    unfold getBoardComplete
    rw [hc]
    rfl
  refine ⟨hb, hmap, ?_, ?_⟩
  · obtain ⟨w, hw⟩ := getProp_jsOr_some body "pipelines"
    rw [← hb] at hw
    exact ⟨w, hw, by rw [hmap, hw]; rfl⟩
  · intro fields hf hnone
    rw [hmap, hf]
    simp [getProp, hnone]

/-- C10, witness: an application-error completion whose body has no
`pipelines` field still goes through the extraction, yielding `undefined`. -/
theorem getBoard_extraction_unconditional_witness :
    JsValue.obj [("status", .str "Bad")] =
      jsOr (.obj [("status", .str "Bad")]) (.obj []) ∧
    getBoardComplete (.err "x") (.obj [("status", .str "Bad")]) =
      (getProp (.obj [("status", .str "Bad")]) "pipelines").map
        (fun p => (.err "x", p)) ∧
    (∃ p, getProp (.obj [("status", .str "Bad")]) "pipelines" = some p ∧
      getBoardComplete (.err "x") (.obj [("status", .str "Bad")]) =
        some (.err "x", p)) ∧
    (∀ fields, JsValue.obj [("status", .str "Bad")] = .obj fields →
      List.lookup "pipelines" fields = none →
      getBoardComplete (.err "x") (.obj [("status", .str "Bad")]) =
        some (.err "x", .undef)) :=
  getBoard_extraction_unconditional (.err "x") (.obj [("status", .str "Bad")])
    (.err "x") (.obj [("status", .str "Bad")]) rfl
